import Mathlib

/-
Verification of the MemoryEmbeddingDB service (an Express + AstraDB CRUD and
vector-similarity facade) against its specification.

Shallow embedding conventions:
* Stored AstraDB documents are the structure `Doc`; the collection is a
  `List Doc` and is passed explicitly through every service operation.
* JavaScript numbers appearing as scores and similarities are rationals.
  Timestamps produced by new Date().toISOString() are modelled as natural
  numbers (milliseconds since the epoch); ISO-8601 strings compare in the
  same order as the underlying instants, so ordering facts transfer.
* The pagination arithmetic of queryMemoryEmbeddings is modelled over
  `JsNum`, which has explicit Infinity and NaN values, because JavaScript
  division by zero does not throw.
* JavaScript objects returned to HTTP clients are modelled as association
  lists `List (String × Json)`; a field that the code never writes is a key
  that is absent from the list.
* Fallible service methods return `Except String`, carrying the exact
  error-message strings the source builds, because the HTTP routers branch
  on message equality.
* The external store (AstraDB client) only supplies: insertion order,
  single-document atomic updates, and the similarity score of the ranked
  vector search.  The similarity score assigned by the store is an explicit
  parameter `simf : Doc → Rat`; the ranked search itself is modelled as a
  descending sort on that score, per the store adapter contract.
-/

namespace MemDB

/-- Json values, used to model the JavaScript objects that the service maps
store documents into.  Object fields are an association list, so presence
and absence of a key are directly expressible. -/
inductive Json where
  | jNull : Json
  | jBool (b : Bool) : Json
  | jNum (q : Rat) : Json
  | jStr (s : String) : Json
  | jArr (elems : List Json) : Json
  | jObj (fields : List (String × Json)) : Json

/-- Gate scores quadruple, from the gateScoresSchema in
middleware/validation.js: four numbers, each required, each in [0,1]. -/
structure GateScores where
  forget_score : Rat
  input_score : Rat
  output_score : Rat
  confidence : Rat
deriving DecidableEq

/-- A stored AstraDB document, with the fields written by
createMemoryEmbedding in the service (the `vector` field models the
`$vector` key that AstraDB uses for the embedding). -/
@[ext] structure Doc where
  id : String
  user_id : String
  memory_type : String
  content_summary : String
  original_entry_id : String
  importance_score : Rat
  emotional_significance : Rat
  temporal_relevance : Rat
  access_frequency : Nat
  last_accessed : Nat
  created_at : Nat
  vector : List Rat
  gate_scores : GateScores
  relationships : List String
  context_needed : List (String × String)
  retrieval_triggers : List String
  updated_at : Nat
deriving DecidableEq

/-- Json encoding of a gate-scores object. -/
def gateScoresJson (g : GateScores) : Json :=
  Json.jObj [("forget_score", Json.jNum g.forget_score),
             ("input_score", Json.jNum g.input_score),
             ("output_score", Json.jNum g.output_score),
             ("confidence", Json.jNum g.confidence)]

/-- Json encoding of a feature vector. -/
def vectorJson (v : List Rat) : Json :=
  Json.jArr (v.map Json.jNum)

/-- Json encoding of a list of strings. -/
def strListJson (l : List String) : Json :=
  Json.jArr (l.map Json.jStr)

/-- Json encoding of the opaque context_needed map. -/
def ctxJson (l : List (String × String)) : Json :=
  Json.jObj (l.map (fun p => (p.1, Json.jStr p.2)))

/-- The record shape built by getMemoryEmbeddingById and by
updateMemoryEmbedding (service lines 82-100 and 139-157): every stored
field, with feature_vector taken from the `$vector` key. -/
def mapFullDoc (d : Doc) : List (String × Json) :=
  [("id", Json.jStr d.id),
   ("user_id", Json.jStr d.user_id),
   ("memory_type", Json.jStr d.memory_type),
   ("content_summary", Json.jStr d.content_summary),
   ("original_entry_id", Json.jStr d.original_entry_id),
   ("importance_score", Json.jNum d.importance_score),
   ("emotional_significance", Json.jNum d.emotional_significance),
   ("temporal_relevance", Json.jNum d.temporal_relevance),
   ("access_frequency", Json.jNum d.access_frequency),
   ("last_accessed", Json.jNum d.last_accessed),
   ("created_at", Json.jNum d.created_at),
   ("feature_vector", vectorJson d.vector),
   ("gate_scores", gateScoresJson d.gate_scores),
   ("relationships", strListJson d.relationships),
   ("context_needed", ctxJson d.context_needed),
   ("retrieval_triggers", strListJson d.retrieval_triggers),
   ("updated_at", Json.jNum d.updated_at)]

/-- The record shape built by queryMemoryEmbeddings for each result
(service lines 343-360): the same fields as mapFullDoc except that no
feature_vector key is written at all. -/
def mapQueryDoc (d : Doc) : List (String × Json) :=
  [("id", Json.jStr d.id),
   ("user_id", Json.jStr d.user_id),
   ("memory_type", Json.jStr d.memory_type),
   ("content_summary", Json.jStr d.content_summary),
   ("original_entry_id", Json.jStr d.original_entry_id),
   ("importance_score", Json.jNum d.importance_score),
   ("emotional_significance", Json.jNum d.emotional_significance),
   ("temporal_relevance", Json.jNum d.temporal_relevance),
   ("access_frequency", Json.jNum d.access_frequency),
   ("last_accessed", Json.jNum d.last_accessed),
   ("created_at", Json.jNum d.created_at),
   ("gate_scores", gateScoresJson d.gate_scores),
   ("relationships", strListJson d.relationships),
   ("context_needed", ctxJson d.context_needed),
   ("retrieval_triggers", strListJson d.retrieval_triggers),
   ("updated_at", Json.jNum d.updated_at)]

/-- The record shape built for each similarity-search result (service lines
225-244): the full record plus a similarity_score key carrying the
store-computed `$similarity` value. -/
def mapSimilarDoc (d : Doc) (sim : Rat) : List (String × Json) :=
  [("id", Json.jStr d.id),
   ("user_id", Json.jStr d.user_id),
   ("memory_type", Json.jStr d.memory_type),
   ("content_summary", Json.jStr d.content_summary),
   ("original_entry_id", Json.jStr d.original_entry_id),
   ("importance_score", Json.jNum d.importance_score),
   ("emotional_significance", Json.jNum d.emotional_significance),
   ("temporal_relevance", Json.jNum d.temporal_relevance),
   ("access_frequency", Json.jNum d.access_frequency),
   ("last_accessed", Json.jNum d.last_accessed),
   ("created_at", Json.jNum d.created_at),
   ("feature_vector", vectorJson d.vector),
   ("gate_scores", gateScoresJson d.gate_scores),
   ("relationships", strListJson d.relationships),
   ("context_needed", ctxJson d.context_needed),
   ("retrieval_triggers", strListJson d.retrieval_triggers),
   ("similarity_score", Json.jNum sim),
   ("updated_at", Json.jNum d.updated_at)]

/-- JavaScript truthiness of a possibly-absent string: absent and the empty
string are falsy. -/
def truthyStr : Option String → Bool
  | none => false
  | some s => s ≠ ""

/-- JavaScript truthiness of a possibly-absent number: absent and 0 are
falsy. -/
def truthyNum : Option Rat → Bool
  | none => false
  | some q => q ≠ 0

/-- JavaScript truthiness of a possibly-absent array: any array, even an
empty one, is truthy. -/
def truthyArr {α : Type} : Option (List α) → Bool
  | none => false
  | some _ => true

/-- JavaScript truthiness of a possibly-absent object: any object is
truthy. -/
def truthyObj {α : Type} : Option α → Bool
  | none => false
  | some _ => true

/-- JavaScript x !== undefined. -/
def isDefined {α : Type} : Option α → Bool
  | none => false
  | some _ => true

/-- JavaScript x || d for a possibly-absent non-negative integer x: absent
and 0 both fall back to the default. -/
def jsOrNat : Option Nat → Nat → Nat
  | none, dflt => dflt
  | some n, dflt => if n = 0 then dflt else n

/-- JavaScript x || [] for a possibly-absent array: arrays are truthy, so
only absence falls back. -/
def jsOrList {α : Type} : Option (List α) → List α
  | none => []
  | some l => l

/-- Hexadecimal digit test used by the uuid shape check. -/
def isHexDigit (c : Char) : Bool :=
  c.isDigit || (('a' ≤ c) && (c ≤ 'f')) || (('A' ≤ c) && (c ≤ 'F'))

/-- Structural check of the 8-4-4-4-12 uuid shape, modelling the
Joi.string().uuid() validations.  Version and variant digits are not
checked; no claim depends on them. -/
def isUuid (s : String) : Bool :=
  s.data.length = 36 &&
  (s.data.enum.all fun p =>
    if p.1 = 8 || p.1 = 13 || p.1 = 18 || p.1 = 23 then p.2 = '-'
    else isHexDigit p.2)

/-- The four legal memory_type values, from the Joi valid(...) list. -/
def memoryTypes : List String := ["conversation", "event", "emotion", "insight"]

/-- Request body of the create operation, after Joi has checked the field
types: required fields are plain, optional fields are Option (absent =
undefined). -/
structure CreateInput where
  user_id : String
  memory_type : String
  content_summary : String
  original_entry_id : String
  importance_score : Rat
  emotional_significance : Rat
  temporal_relevance : Rat
  access_frequency : Option Nat
  feature_vector : List Rat
  gate_scores : GateScores
  relationships : Option (List String)
  context_needed : Option (List (String × String))
  retrieval_triggers : Option (List String)
deriving DecidableEq

/-- Request body of the update operation: every field optional, from
updateMemoryEmbeddingSchema. -/
structure UpdateInput where
  content_summary : Option String
  importance_score : Option Rat
  emotional_significance : Option Rat
  temporal_relevance : Option Rat
  access_frequency : Option Nat
  feature_vector : Option (List Rat)
  gate_scores : Option GateScores
  relationships : Option (List String)
  context_needed : Option (List (String × String))
  retrieval_triggers : Option (List String)
deriving DecidableEq

/-- The update request with no field supplied. -/
def emptyUpdate : UpdateInput :=
  ⟨none, none, none, none, none, none, none, none, none, none⟩

/-- Value constraints of the gateScoresSchema: each of the four scores in
[0,1]. -/
def gateScoresValid (g : GateScores) : Bool :=
  (0 ≤ g.forget_score && g.forget_score ≤ 1) &&
  (0 ≤ g.input_score && g.input_score ≤ 1) &&
  (0 ≤ g.output_score && g.output_score ≤ 1) &&
  (0 ≤ g.confidence && g.confidence ≤ 1)

/-- Value constraints of memoryEmbeddingSchema (middleware/validation.js
lines 12-34), one conjunct per Joi rule.  The integer and non-negativity
constraints on access_frequency are carried by the Nat type. -/
def createValid (e : CreateInput) : Bool :=
  isUuid e.user_id &&
  memoryTypes.contains e.memory_type &&
  (1 ≤ e.content_summary.length && e.content_summary.length ≤ 5000) &&
  isUuid e.original_entry_id &&
  (0 ≤ e.importance_score && e.importance_score ≤ 1) &&
  (0 ≤ e.emotional_significance && e.emotional_significance ≤ 1) &&
  (0 ≤ e.temporal_relevance && e.temporal_relevance ≤ 1) &&
  e.feature_vector.length = 90 &&
  gateScoresValid e.gate_scores &&
  (jsOrList e.relationships).all isUuid

/-- Value constraints of updateMemoryEmbeddingSchema (validation.js lines
37-51): every field optional, present fields must satisfy the same
per-field constraints as create. -/
def updateValid (u : UpdateInput) : Bool :=
  (match u.content_summary with
   | none => true
   | some s => 1 ≤ s.length && s.length ≤ 5000) &&
  (match u.importance_score with
   | none => true
   | some q => 0 ≤ q && q ≤ 1) &&
  (match u.emotional_significance with
   | none => true
   | some q => 0 ≤ q && q ≤ 1) &&
  (match u.temporal_relevance with
   | none => true
   | some q => 0 ≤ q && q ≤ 1) &&
  (match u.feature_vector with
   | none => true
   | some v => v.length = 90) &&
  (match u.gate_scores with
   | none => true
   | some g => gateScoresValid g) &&
  (match u.relationships with
   | none => true
   | some l => l.all isUuid)

/-- Constraints of batchSchema (validation.js lines 78-88): embeddings is a
list of create-shaped records, at least 1, at most 50, each item validated
with the create rules. -/
def batchValid (l : List CreateInput) : Bool :=
  1 ≤ l.length && l.length ≤ 50 && l.all createValid

/-- The collection.findOne point lookup: the first stored document whose
_id equals the requested id. -/
def findDoc (docs : List Doc) (id : String) : Option Doc :=
  docs.find? (fun d => d.id == id)

/-- Single-document update as performed by the store for findOneAndUpdate:
the first matching document is replaced by its updated image, every other
document is untouched. -/
def updateFirst (docs : List Doc) (id : String) (f : Doc → Doc) : List Doc :=
  match docs with
  | [] => []
  | d :: rest =>
      if d.id == id then f d :: rest else d :: updateFirst rest id f

/-- Single-document removal as performed by deleteOne. -/
def removeFirst (docs : List Doc) (id : String) : List Doc :=
  match docs with
  | [] => []
  | d :: rest =>
      if d.id == id then rest else d :: removeFirst rest id

/-- The error message the service builds for a missing record. -/
def notFoundMsg : String := "Memory embedding not found"

/-- The document createMemoryEmbedding builds (service lines 38-56): a
fresh id from uuidv4 (passed in as newId), timestamps stamped to now,
access_frequency defaulted through JavaScript or-with-0, and the three
collection fields defaulted through or-with-empty. -/
def buildDocument (e : CreateInput) (newId : String) (now : Nat) : Doc :=
  { id := newId
    user_id := e.user_id
    memory_type := e.memory_type
    content_summary := e.content_summary
    original_entry_id := e.original_entry_id
    importance_score := e.importance_score
    emotional_significance := e.emotional_significance
    temporal_relevance := e.temporal_relevance
    access_frequency := jsOrNat e.access_frequency 0
    last_accessed := now
    created_at := now
    vector := e.feature_vector
    gate_scores := e.gate_scores
    relationships := jsOrList e.relationships
    context_needed := (match e.context_needed with | none => [] | some m => m)
    retrieval_triggers := jsOrList e.retrieval_triggers
    updated_at := now }

/-- createMemoryEmbedding: build the document and insert it; returns the
created document and the new collection state. -/
def createMemoryEmbedding (docs : List Doc) (e : CreateInput)
    (newId : String) (now : Nat) : Doc × List Doc :=
  let doc := buildDocument e newId now
  (doc, docs ++ [doc])

/-- createMemoryEmbeddingsBatch (service lines 252-293): map every input
to a document (each with its own fresh id) and insertMany them. -/
def createMemoryEmbeddingsBatch (docs : List Doc) (es : List CreateInput)
    (newIds : List String) (now : Nat) : List Doc × List Doc :=
  let documents := List.zipWith (fun e i => buildDocument e i now) es newIds
  (documents, docs ++ documents)

/-- getMemoryEmbeddingById (service lines 72-104).  The not-found throw
happens inside the try block, so the catch wraps it: the error the caller
sees is the Failed-to-get message with the not-found text appended, never
the bare not-found message. -/
def getMemoryEmbeddingById (docs : List Doc) (id : String) :
    Except String (List (String × Json)) :=
  match findDoc docs id with
  | none => .error ("Failed to get memory embedding: " ++ notFoundMsg)
  | some d => .ok (mapFullDoc d)

/-- The partial change-set of updateMemoryEmbedding.  A `some` field is a
key the service wrote into the $set document; `none` means the key is
absent and the store leaves the stored value alone. -/
structure UpdateDoc where
  updated_at : Nat
  vector : Option (List Rat)
  content_summary : Option String
  importance_score : Option Rat
  emotional_significance : Option Rat
  temporal_relevance : Option Rat
  access_frequency : Option Nat
  gate_scores : Option GateScores
  relationships : Option (List String)
  context_needed : Option (List (String × String))
  retrieval_triggers : Option (List String)
deriving DecidableEq

/-- Construction of the $set document (service lines 111-127), with the
exact JavaScript conditions of the source: plain truthiness tests for the
string, array and object fields, and !== undefined tests for the four
numeric fields. -/
def buildUpdateDoc (u : UpdateInput) (now : Nat) : UpdateDoc :=
  { updated_at := now
    vector := if truthyArr u.feature_vector then u.feature_vector else none
    content_summary := if truthyStr u.content_summary then u.content_summary else none
    importance_score := if isDefined u.importance_score then u.importance_score else none
    emotional_significance :=
      if isDefined u.emotional_significance then u.emotional_significance else none
    temporal_relevance :=
      if isDefined u.temporal_relevance then u.temporal_relevance else none
    access_frequency := if isDefined u.access_frequency then u.access_frequency else none
    gate_scores := if truthyObj u.gate_scores then u.gate_scores else none
    relationships := if truthyArr u.relationships then u.relationships else none
    context_needed := if truthyObj u.context_needed then u.context_needed else none
    retrieval_triggers := if truthyArr u.retrieval_triggers then u.retrieval_triggers else none }

/-- Application of a $set change-set to one stored document: keys present
in the change-set overwrite, absent keys keep the stored value. -/
def applyUpdateDoc (d : Doc) (ud : UpdateDoc) : Doc :=
  { d with
    updated_at := ud.updated_at
    vector := ud.vector.getD d.vector
    content_summary := ud.content_summary.getD d.content_summary
    importance_score := ud.importance_score.getD d.importance_score
    emotional_significance := ud.emotional_significance.getD d.emotional_significance
    temporal_relevance := ud.temporal_relevance.getD d.temporal_relevance
    access_frequency := ud.access_frequency.getD d.access_frequency
    gate_scores := ud.gate_scores.getD d.gate_scores
    relationships := ud.relationships.getD d.relationships
    context_needed := ud.context_needed.getD d.context_needed
    retrieval_triggers := ud.retrieval_triggers.getD d.retrieval_triggers }

/-- updateMemoryEmbedding (service lines 107-161): findOneAndUpdate with
returnDocument after; not-found is thrown inside the try block and
therefore reaches the caller wrapped in the Failed-to-update message. -/
def updateMemoryEmbedding (docs : List Doc) (id : String) (u : UpdateInput)
    (now : Nat) : Except String (List (String × Json) × List Doc) :=
  let ud := buildUpdateDoc u now
  match findDoc docs id with
  | none => .error ("Failed to update memory embedding: " ++ notFoundMsg)
  | some d =>
      .ok (mapFullDoc (applyUpdateDoc d ud),
           updateFirst docs id (fun x => applyUpdateDoc x ud))

/-- Result object of deleteMemoryEmbedding. -/
structure DeleteResult where
  id : String
  deleted : Bool
  deletedCount : Nat
deriving DecidableEq

/-- deleteMemoryEmbedding (service lines 164-182): deleteOne, then a
not-found throw on deletedCount 0, wrapped by the catch like the other
operations. -/
def deleteMemoryEmbedding (docs : List Doc) (id : String) :
    Except String (DeleteResult × List Doc) :=
  match findDoc docs id with
  | none => .error ("Failed to delete memory embedding: " ++ notFoundMsg)
  | some _ => .ok ({ id := id, deleted := true, deletedCount := 1 },
                   removeFirst docs id)

/-- Result object of recordMemoryAccess. -/
structure AccessResult where
  id : String
  access_frequency : Nat
  last_accessed : Nat
deriving DecidableEq

/-- The single-document effect of recordMemoryAccess: $inc increments
access_frequency by 1, $set refreshes last_accessed and updated_at. -/
def bumpAccess (now : Nat) (d : Doc) : Doc :=
  { d with
    access_frequency := d.access_frequency + 1
    last_accessed := now
    updated_at := now }

/-- recordMemoryAccess (service lines 375-403): one atomic
findOneAndUpdate with returnDocument after, returning the new counter and
timestamp; not-found reaches the caller wrapped in the Failed-to-record
message. -/
def recordMemoryAccess (docs : List Doc) (id : String) (now : Nat) :
    Except String (AccessResult × List Doc) :=
  match findDoc docs id with
  | none => .error ("Failed to record memory access: " ++ notFoundMsg)
  | some d =>
      .ok ({ id := d.id
             access_frequency := (bumpAccess now d).access_frequency
             last_accessed := (bumpAccess now d).last_accessed },
           updateFirst docs id (bumpAccess now))

/-- A sequence of recordMemoryAccess calls on the same id, one per listed
timestamp, threading the collection state. -/
def runAccesses (docs : List Doc) (id : String) :
    List Nat → Except String (List AccessResult × List Doc)
  | [] => .ok ([], docs)
  | t :: ts =>
      match recordMemoryAccess docs id t with
      | .error e => .error e
      | .ok (r, docs1) =>
          match runAccesses docs1 id ts with
          | .error e => .error e
          | .ok (rs, docs2) => .ok (r :: rs, docs2)

/-- JavaScript number results of the pagination arithmetic: a finite
rational, an infinity, or NaN.  Division by zero in JavaScript produces an
infinity or NaN instead of throwing. -/
inductive JsNum where
  | num (q : Rat) : JsNum
  | posInf : JsNum
  | negInf : JsNum
  | nan : JsNum
deriving DecidableEq

/-- JavaScript division, restricted to the values the pagination code can
produce. -/
def jsDiv : JsNum → JsNum → JsNum
  | .num a, .num b =>
      if b = 0 then (if a = 0 then .nan else if 0 < a then .posInf else .negInf)
      else .num (a / b)
  | .nan, _ => .nan
  | _, .nan => .nan
  | .posInf, .posInf => .nan
  | .posInf, .negInf => .nan
  | .negInf, .posInf => .nan
  | .negInf, .negInf => .nan
  | .posInf, .num b => if b < 0 then .negInf else .posInf
  | .negInf, .num b => if b < 0 then .posInf else .negInf
  | .num _, .posInf => .num 0
  | .num _, .negInf => .num 0

/-- JavaScript Math.floor, which maps infinities and NaN to themselves. -/
def jsFloor : JsNum → JsNum
  | .num q => .num (⌊q⌋ : Int)
  | x => x

/-- JavaScript Math.ceil, which maps infinities and NaN to themselves. -/
def jsCeil : JsNum → JsNum
  | .num q => .num (⌈q⌉ : Int)
  | x => x

/-- JavaScript addition on the values the pagination code can produce. -/
def jsAdd : JsNum → JsNum → JsNum
  | .num a, .num b => .num (a + b)
  | .nan, _ => .nan
  | _, .nan => .nan
  | .posInf, .negInf => .nan
  | .negInf, .posInf => .nan
  | .posInf, _ => .posInf
  | _, .posInf => .posInf
  | .negInf, _ => .negInf
  | _, .negInf => .negInf

/-- Whether a JavaScript number is an ordinary finite number. -/
def JsNum.isFinite : JsNum → Bool
  | .num _ => true
  | _ => false

/-- Optional created_at range filter.  The stop field models the end key of
the source (end is reserved in Lean). -/
structure DateRange where
  start : Option Nat
  stop : Option Nat
deriving DecidableEq

/-- Options object of queryMemoryEmbeddings, every field optional exactly
as in the destructuring of service lines 300-311. -/
structure QueryOptions where
  user_id : Option String := none
  memory_type : Option String := none
  min_importance_score : Option Rat := none
  min_emotional_significance : Option Rat := none
  min_temporal_relevance : Option Rat := none
  date_range : Option DateRange := none
  limit : Option Nat := none
  offset : Option Nat := none
  sort_by : Option String := none
  sort_order : Option String := none
deriving DecidableEq

/-- The conjunctive filter built by service lines 314-326, evaluated
against one stored document.  Each condition is guarded by the JavaScript
truthiness test of the source, so a min score of 0 adds no clause. -/
def matchesQuery (o : QueryOptions) (d : Doc) : Bool :=
  (if truthyStr o.user_id then d.user_id == o.user_id.getD "" else true) &&
  (if truthyStr o.memory_type then d.memory_type == o.memory_type.getD "" else true) &&
  (if truthyNum o.min_importance_score then
      o.min_importance_score.getD 0 ≤ d.importance_score else true) &&
  (if truthyNum o.min_emotional_significance then
      o.min_emotional_significance.getD 0 ≤ d.emotional_significance else true) &&
  (if truthyNum o.min_temporal_relevance then
      o.min_temporal_relevance.getD 0 ≤ d.temporal_relevance else true) &&
  (match o.date_range with
   | none => true
   | some r =>
      (match r.start with | none => true | some s => s ≤ d.created_at) &&
      (match r.stop with | none => true | some e => d.created_at ≤ e))

/-- Numeric sort key of the store sort for one of the six legal sort_by
fields.  A field outside the validated list is treated as a constant key,
leaving the store order unchanged. -/
def sortKey (k : String) (d : Doc) : Rat :=
  if k == "created_at" then (d.created_at : Rat)
  else if k == "last_accessed" then (d.last_accessed : Rat)
  else if k == "importance_score" then d.importance_score
  else if k == "emotional_significance" then d.emotional_significance
  else if k == "temporal_relevance" then d.temporal_relevance
  else if k == "access_frequency" then (d.access_frequency : Rat)
  else 0

/-- The store sort order over documents: ascending in the sort key when
asc is requested, descending otherwise. -/
def docOrder (k : String) (asc : Bool) (a b : Doc) : Prop :=
  if asc then sortKey k a ≤ sortKey k b else sortKey k b ≤ sortKey k a

instance (k : String) (asc : Bool) : DecidableRel (docOrder k asc) := by
  intro a b
  unfold docOrder
  infer_instance

/-- Pagination summary object of service lines 361-367, with the page
arithmetic carried out in JavaScript numbers. -/
structure Pagination where
  total_count : Nat
  current_page : JsNum
  total_pages : JsNum
  has_next : Bool
  has_previous : Bool
deriving DecidableEq

/-- Return value of queryMemoryEmbeddings. -/
structure QueryResult where
  results : List (List (String × Json))
  pagination : Pagination

/-- queryMemoryEmbeddings (service lines 296-372): destructure options
with defaults limit 20, offset 0, sort created_at descending; filter, sort,
skip, limit; count all matching documents; and build the pagination
summary with Math.floor(offset/limit)+1 and Math.ceil(total/limit). -/
def queryMemoryEmbeddings (docs : List Doc) (o : QueryOptions) : QueryResult :=
  let limit := o.limit.getD 20
  let offset := o.offset.getD 0
  let sort_by := o.sort_by.getD "created_at"
  let asc := o.sort_order.getD "desc" == "asc"
  let matching := docs.filter (matchesQuery o)
  let sorted := matching.insertionSort (docOrder sort_by asc)
  let page := (sorted.drop offset).take limit
  let totalCount := matching.length
  { results := page.map mapQueryDoc
    pagination :=
      { total_count := totalCount
        current_page :=
          jsAdd (jsFloor (jsDiv (.num offset) (.num limit))) (.num 1)
        total_pages := jsCeil (jsDiv (.num totalCount) (.num limit))
        has_next := offset + limit < totalCount
        has_previous := 0 < offset } }

/-- Constraints of querySchema (validation.js lines 91-105): every filter
optional, limit an integer in [1,100], offset a non-negative integer,
sort_by one of six fields, sort_order asc or desc. -/
def queryValid (o : QueryOptions) : Bool :=
  (match o.user_id with | none => true | some u => isUuid u) &&
  (match o.memory_type with | none => true | some t => memoryTypes.contains t) &&
  (match o.min_importance_score with | none => true | some q => 0 ≤ q && q ≤ 1) &&
  (match o.min_emotional_significance with | none => true | some q => 0 ≤ q && q ≤ 1) &&
  (match o.min_temporal_relevance with | none => true | some q => 0 ≤ q && q ≤ 1) &&
  (match o.limit with | none => true | some n => 1 ≤ n && n ≤ 100) &&
  (match o.sort_by with
   | none => true
   | some s => (["created_at", "last_accessed", "importance_score",
                 "emotional_significance", "temporal_relevance",
                 "access_frequency"] : List String).contains s) &&
  (match o.sort_order with
   | none => true
   | some s => (["asc", "desc"] : List String).contains s)

/-- Filters sub-object of the similarity search (service lines 189-208). -/
structure SimFilters where
  user_id : Option String := none
  memory_type : Option String := none
  min_importance_score : Option Rat := none
  min_emotional_significance : Option Rat := none
  min_temporal_relevance : Option Rat := none
  date_range : Option DateRange := none
  retrieval_triggers : Option (List String) := none
deriving DecidableEq

/-- The conjunctive filter built by findSimilarMemoryEmbeddings before the
ranked vector search, with the truthiness guards of the source; the
retrieval_triggers clause is a membership test (the store $in operator
matches documents whose trigger array contains one of the listed values),
guarded by presence and non-emptiness. -/
def matchesSim (f : SimFilters) (d : Doc) : Bool :=
  (if truthyStr f.user_id then d.user_id == f.user_id.getD "" else true) &&
  (if truthyStr f.memory_type then d.memory_type == f.memory_type.getD "" else true) &&
  (if truthyNum f.min_importance_score then
      f.min_importance_score.getD 0 ≤ d.importance_score else true) &&
  (if truthyNum f.min_emotional_significance then
      f.min_emotional_significance.getD 0 ≤ d.emotional_significance else true) &&
  (if truthyNum f.min_temporal_relevance then
      f.min_temporal_relevance.getD 0 ≤ d.temporal_relevance else true) &&
  (match f.date_range with
   | none => true
   | some r =>
      (match r.start with | none => true | some s => s ≤ d.created_at) &&
      (match r.stop with | none => true | some e => d.created_at ≤ e)) &&
  (match f.retrieval_triggers with
   | none => true
   | some ts =>
      if ts.length > 0 then d.retrieval_triggers.any (fun t => ts.contains t)
      else true)

/-- Descending order on the store-computed similarity score, the order in
which the ranked vector search yields its rows. -/
def simOrder (simf : Doc → Rat) (a b : Doc) : Prop :=
  simf b ≤ simf a

instance (simf : Doc → Rat) : DecidableRel (simOrder simf) := by
  intro a b
  unfold simOrder
  infer_instance

instance (simf : Doc → Rat) : IsTotal Doc (simOrder simf) :=
  ⟨fun a b => le_total (simf b) (simf a)⟩

instance (simf : Doc → Rat) : IsTrans Doc (simOrder simf) :=
  ⟨fun _ _ _ hab hbc => le_trans hbc hab⟩

/-- The rows the ranked vector search hands back to the service: matching
documents in descending similarity order, cut to the requested limit. -/
def simRows (docs : List Doc) (simf : Doc → Rat) (limit : Nat)
    (f : SimFilters) : List Doc :=
  ((docs.filter (matchesSim f)).insertionSort (simOrder simf)).take limit

/-- Return value of findSimilarMemoryEmbeddings. -/
structure SimilarResult where
  query_vector_dimensions : Nat
  results_count : Nat
  max_similarity_score : Rat
  min_similarity_score : Rat
  results : List (List (String × Json))

/-- findSimilarMemoryEmbeddings (service lines 185-249): report the query
vector dimensionality and row count, read the maximum similarity off the
first returned row and the minimum off the last (0 for both when no row
came back), and map every row with its similarity attached. -/
def findSimilarMemoryEmbeddings (docs : List Doc) (queryVector : List Rat)
    (simf : Doc → Rat) (limit : Nat) (f : SimFilters) : SimilarResult :=
  let rows := simRows docs simf limit f
  { query_vector_dimensions := queryVector.length
    results_count := rows.length
    max_similarity_score := match rows with | [] => 0 | r :: _ => simf r
    min_similarity_score := match rows.getLast? with | none => 0 | some r => simf r
    results := rows.map (fun r => mapSimilarDoc r (simf r)) }

/-- Average-score row of the aggregation pipeline of getStatistics: the
store groups all documents into one row of four averages, and produces no
row at all when the collection is empty. -/
structure ScoreStats where
  avg_importance_score : Rat
  avg_emotional_significance : Rat
  avg_temporal_relevance : Rat
  avg_access_frequency : Rat
deriving DecidableEq

/-- The aggregate of service lines 426-436: an empty collection yields no
group row, a non-empty one yields the four field averages. -/
def scoreAggregate (docs : List Doc) : List ScoreStats :=
  match docs with
  | [] => []
  | _ =>
      [{ avg_importance_score :=
           (docs.map (fun d => d.importance_score)).sum / docs.length
         avg_emotional_significance :=
           (docs.map (fun d => d.emotional_significance)).sum / docs.length
         avg_temporal_relevance :=
           (docs.map (fun d => d.temporal_relevance)).sum / docs.length
         avg_access_frequency :=
           (docs.map (fun d => (d.access_frequency : Rat))).sum / docs.length }]

/-- The memory_type group counts of service lines 413-415 folded into an
object (lines 441-444): one key per distinct memory_type with its count.
An empty collection reduces to the empty object. -/
def typeCounts (docs : List Doc) : List (String × Nat) :=
  ((docs.map (fun d => d.memory_type)).dedup).map
    (fun t => (t, (docs.filter (fun d => d.memory_type == t)).length))

/-- Return value of getStatistics. -/
structure Stats where
  total_memories : Nat
  recent_memories_7_days : Nat
  memory_type_distribution : List (String × Nat)
  score_statistics : ScoreStats
  collection_name : String
  vector_dimensions : Nat
deriving DecidableEq

/-- Milliseconds in seven days, the recent-activity window. -/
def sevenDaysMs : Nat := 7 * 24 * 60 * 60 * 1000

/-- getStatistics (service lines 406-459): total count, count of documents
created in the last seven days, the memory_type distribution, the average
scores with the all-zero fallback object of scoreStats[0] || ..., and the
fixed collection metadata with vector dimensionality 90. -/
def getStatistics (docs : List Doc) (now : Nat) : Stats :=
  { total_memories := docs.length
    recent_memories_7_days :=
      (docs.filter (fun d => now - sevenDaysMs ≤ d.created_at)).length
    memory_type_distribution := typeCounts docs
    score_statistics := (scoreAggregate docs).head?.getD
      { avg_importance_score := 0
        avg_emotional_significance := 0
        avg_temporal_relevance := 0
        avg_access_frequency := 0 }
    collection_name := "memory_embeddings"
    vector_dimensions := 90 }

/-- Outcome of one route handler: either a response it sent itself, or the
error it forwarded with next(error) to the generic error-handling
middleware (which answers with a non-404 generic failure). -/
inductive RouteOutcome where
  | respond (status : Nat) (body : List (String × Json)) : RouteOutcome
  | nextError (message : String) : RouteOutcome

/-- The 400 response of the validate middleware (validation.js lines
117-136).  The per-field details string built from the Joi report is not
modelled; no claim depends on its text. -/
def validationErrorResponse : RouteOutcome :=
  .respond 400 [("success", Json.jBool false), ("error", Json.jStr "Validation Error")]

/-- The 400 response of the validateQuery middleware (validation.js lines
139-158). -/
def queryValidationErrorResponse : RouteOutcome :=
  .respond 400 [("success", Json.jBool false),
                ("error", Json.jStr "Query Validation Error")]

/-- The 404 body the routers build when an error message equals the bare
not-found text. -/
def notFoundResponse : RouteOutcome :=
  .respond 404 [("success", Json.jBool false), ("error", Json.jStr notFoundMsg)]

/-- GET /:id (routes lines 104-121): answer 200 with the mapped record,
404 when the error message is exactly the bare not-found text, and forward
every other error to the generic handler. -/
def handleGetById (docs : List Doc) (id : String) : RouteOutcome :=
  match getMemoryEmbeddingById docs id with
  | .ok body => .respond 200 [("success", Json.jBool true), ("data", Json.jObj body)]
  | .error msg =>
      if msg == notFoundMsg then notFoundResponse else .nextError msg

/-- PUT /:id (routes lines 126-144): validate, call the service, answer
200, 404 on the exact bare not-found message, forward other errors. -/
def handleUpdate (docs : List Doc) (id : String) (u : UpdateInput)
    (now : Nat) : RouteOutcome × List Doc :=
  if updateValid u then
    match updateMemoryEmbedding docs id u now with
    | .ok (body, docs1) =>
        (.respond 200 [("success", Json.jBool true), ("data", Json.jObj body)], docs1)
    | .error msg =>
        (if msg == notFoundMsg then notFoundResponse else .nextError msg, docs)
  else (validationErrorResponse, docs)

/-- DELETE /:id (routes lines 149-167). -/
def handleDelete (docs : List Doc) (id : String) : RouteOutcome × List Doc :=
  match deleteMemoryEmbedding docs id with
  | .ok (_, docs1) => (.respond 200 [("success", Json.jBool true)], docs1)
  | .error msg =>
      (if msg == notFoundMsg then notFoundResponse else .nextError msg, docs)

/-- POST /:id/access (routes lines 224-242). -/
def handleAccess (docs : List Doc) (id : String) (now : Nat) :
    RouteOutcome × List Doc :=
  match recordMemoryAccess docs id now with
  | .ok (r, docs1) =>
      (.respond 200 [("success", Json.jBool true),
                     ("data", Json.jObj [("id", Json.jStr r.id),
                       ("access_frequency", Json.jNum r.access_frequency),
                       ("last_accessed", Json.jNum r.last_accessed)])], docs1)
  | .error msg =>
      (if msg == notFoundMsg then notFoundResponse else .nextError msg, docs)

/-- POST / (routes lines 87-99): validate with the create schema, then
create and answer 201. -/
def handleCreate (docs : List Doc) (e : CreateInput) (newId : String)
    (now : Nat) : RouteOutcome × List Doc :=
  if createValid e then
    let (doc, docs1) := createMemoryEmbedding docs e newId now
    (.respond 201 [("success", Json.jBool true), ("data", Json.jObj (mapFullDoc doc))],
     docs1)
  else (validationErrorResponse, docs)

/-- POST /batch (routes lines 52-65): validate with the batch schema, then
insert every document and answer 201. -/
def handleBatch (docs : List Doc) (es : List CreateInput)
    (newIds : List String) (now : Nat) : RouteOutcome × List Doc :=
  if batchValid es then
    let (inserted, docs1) := createMemoryEmbeddingsBatch docs es newIds now
    (.respond 201 [("success", Json.jBool true),
                   ("inserted_count", Json.jNum inserted.length)], docs1)
  else (validationErrorResponse, docs)

/-- GET /query (routes lines 70-82): validate the query string with
querySchema, then run the generic query and answer 200.  The result
payload itself is covered by the service-level theorems. -/
def handleQuery (_docs : List Doc) (o : QueryOptions) : RouteOutcome :=
  if queryValid o then .respond 200 [("success", Json.jBool true)]
  else queryValidationErrorResponse

/-- A uuid-shaped identifier used in concrete instantiations. -/
def sampleUuid : String := "550e8400-e29b-41d4-a716-446655440000"

/-- A concrete stored document used in concrete instantiations. -/
def sampleDoc : Doc :=
  { id := "id1"
    user_id := sampleUuid
    memory_type := "conversation"
    content_summary := "sample"
    original_entry_id := sampleUuid
    importance_score := 1/2
    emotional_significance := 1/2
    temporal_relevance := 1/2
    access_frequency := 0
    last_accessed := 0
    created_at := 0
    vector := List.replicate 90 0
    gate_scores := ⟨1/2, 1/2, 1/2, 1/2⟩
    relationships := []
    context_needed := []
    retrieval_triggers := ["anxiety"]
    updated_at := 0 }

/-- A concrete well-formed create request. -/
def sampleCreate : CreateInput :=
  { user_id := sampleUuid
    memory_type := "conversation"
    content_summary := "sample"
    original_entry_id := sampleUuid
    importance_score := 1/2
    emotional_significance := 1/2
    temporal_relevance := 1/2
    access_frequency := none
    feature_vector := List.replicate 90 0
    gate_scores := ⟨1/2, 1/2, 1/2, 1/2⟩
    relationships := none
    context_needed := none
    retrieval_triggers := none }

/-- A create request whose feature vector is not 90-dimensional. -/
def badCreate : CreateInput := { sampleCreate with feature_vector := [] }

/-- An update request whose supplied feature vector is not
90-dimensional. -/
def badUpdate : UpdateInput := { emptyUpdate with feature_vector := some [] }

/-- An update request supplying a score of 0 and an empty relationship
list, the two field shapes a truthiness check would drop. -/
def zeroishUpdate : UpdateInput :=
  { emptyUpdate with importance_score := some 0, relationships := some [] }

lemma lookup_mapQueryDoc_vector (d : Doc) :
    (mapQueryDoc d).lookup "feature_vector" = none := rfl

lemma lookup_mapFullDoc_vector (d : Doc) :
    (mapFullDoc d).lookup "feature_vector" = some (vectorJson d.vector) := rfl

lemma lookup_mapSimilarDoc_vector (d : Doc) (sim : Rat) :
    (mapSimilarDoc d sim).lookup "feature_vector" = some (vectorJson d.vector) := rfl

lemma lookup_mapSimilarDoc_score (d : Doc) (sim : Rat) :
    (mapSimilarDoc d sim).lookup "similarity_score" = some (Json.jNum sim) := rfl

/-- Claim C10: every record returned by the generic query operation omits
the feature_vector field entirely, whereas records returned by get-by-id
and by similarity search carry the stored feature vector. -/
theorem C10_query_projection_drops_vector :
    (∀ (docs : List Doc) (o : QueryOptions),
        ∀ r ∈ (queryMemoryEmbeddings docs o).results,
          r.lookup "feature_vector" = none) ∧
    (∀ (docs : List Doc) (id : String) (body : List (String × Json)),
        getMemoryEmbeddingById docs id = .ok body →
        ∃ d, findDoc docs id = some d ∧
          body.lookup "feature_vector" = some (vectorJson d.vector)) ∧
    (∀ (docs : List Doc) (qv : List Rat) (simf : Doc → Rat) (lim : Nat)
        (f : SimFilters),
        ∀ r ∈ (findSimilarMemoryEmbeddings docs qv simf lim f).results,
          ∃ d, r = mapSimilarDoc d (simf d) ∧
            r.lookup "feature_vector" = some (vectorJson d.vector)) := by
  refine ⟨?_, ?_, ?_⟩
  · intro docs o r hr
    simp only [queryMemoryEmbeddings, List.mem_map] at hr
    obtain ⟨d, _, rfl⟩ := hr
    exact lookup_mapQueryDoc_vector d
  · intro docs id body hok
    unfold getMemoryEmbeddingById at hok
    cases hfd : findDoc docs id with
    | none => rw [hfd] at hok; exact absurd hok (by simp)
    | some d =>
        rw [hfd] at hok
        refine ⟨d, rfl, ?_⟩
        have hbody : body = mapFullDoc d := by
          cases hok
          rfl
        rw [hbody]
        exact lookup_mapFullDoc_vector d
  · intro docs qv simf lim f r hr
    simp only [findSimilarMemoryEmbeddings, List.mem_map] at hr
    obtain ⟨d, _, rfl⟩ := hr
    exact ⟨d, rfl, lookup_mapSimilarDoc_vector d (simf d)⟩

/-- Claim C10 witness: a concrete get-by-id call returns the stored
90-dimensional vector under the feature_vector key. -/
theorem C10_witness :
    ∃ d, findDoc [sampleDoc] "id1" = some d ∧
      (mapFullDoc sampleDoc).lookup "feature_vector" = some (vectorJson d.vector) :=
  C10_query_projection_drops_vector.2.1 [sampleDoc] "id1" (mapFullDoc sampleDoc) rfl

/-- Claim C9: statistics on the empty collection report zero totals, an
all-zero average-score object instead of a missing or non-numeric one, and
the empty memory_type distribution, and statistics on any collection
report the fixed vector-dimensionality constant 90. -/
theorem C9_statistics_empty_collection :
    (∀ now : Nat, getStatistics [] now =
      { total_memories := 0
        recent_memories_7_days := 0
        memory_type_distribution := []
        score_statistics :=
          { avg_importance_score := 0
            avg_emotional_significance := 0
            avg_temporal_relevance := 0
            avg_access_frequency := 0 }
        collection_name := "memory_embeddings"
        vector_dimensions := 90 }) ∧
    (∀ (docs : List Doc) (now : Nat),
        (getStatistics docs now).vector_dimensions = 90) :=
  ⟨fun _ => rfl, fun _ _ => rfl⟩

/-- Claim C1: the service wraps its own not-found throw inside the catch
block, so the message the routers compare against is never the bare
not-found text, and all four nonexistent-id requests fall through to the
generic error handler instead of the 404 branch.  This theorem evaluates
the four routes at a missing id and shows each one forwards the wrapped
message with next(error) rather than answering 404. -/
theorem C1_notfound_never_reaches_404 :
    handleGetById [] "missing" =
      .nextError ("Failed to get memory embedding: " ++ notFoundMsg) ∧
    handleUpdate [] "missing" emptyUpdate 0 =
      (.nextError ("Failed to update memory embedding: " ++ notFoundMsg), []) ∧
    handleDelete [] "missing" =
      (.nextError ("Failed to delete memory embedding: " ++ notFoundMsg), []) ∧
    handleAccess [] "missing" 0 =
      (.nextError ("Failed to record memory access: " ++ notFoundMsg), []) :=
  ⟨rfl, rfl, rfl, rfl⟩

/-- Claim C7: a batch request passes validation exactly when it is a
non-empty list of at most 50 records that each pass the create rules, and
a batch failing validation is answered 400 with the store untouched. -/
theorem C7_batch_all_or_nothing (docs : List Doc) (es : List CreateInput)
    (newIds : List String) (now : Nat) :
    (batchValid es = true ↔
      (1 ≤ es.length ∧ es.length ≤ 50 ∧ ∀ e ∈ es, createValid e = true)) ∧
    (batchValid es = false →
      handleBatch docs es newIds now = (validationErrorResponse, docs)) := by
  constructor
  · simp [batchValid, List.all_eq_true, and_assoc]
  · intro hfail
    unfold handleBatch
    rw [if_neg (by simp [hfail])]

/-- Claim C7 witness: a batch of 51 records is rejected whole, before any
insert, even though each record is individually well formed. -/
theorem C7_witness :
    handleBatch [] (List.replicate 51 sampleCreate) [] 0 =
      (validationErrorResponse, []) :=
  (C7_batch_all_or_nothing [] (List.replicate 51 sampleCreate) [] 0).2 (by rfl)

lemma createValid_vector_length {e : CreateInput} (h : createValid e = true) :
    e.feature_vector.length = 90 := by
  simp only [createValid, Bool.and_eq_true, decide_eq_true_eq] at h
  exact h.1.1.2

lemma updateValid_vector_length {u : UpdateInput} {v : List Rat}
    (h : updateValid u = true) (hv : u.feature_vector = some v) :
    v.length = 90 := by
  simp only [updateValid, Bool.and_eq_true] at h
  have := h.1.1.2
  rw [hv] at this
  simpa using this

lemma mem_updateFirst {docs : List Doc} {id : String} {f : Doc → Doc} {x : Doc}
    (hx : x ∈ updateFirst docs id f) : x ∈ docs ∨ ∃ d ∈ docs, x = f d := by
  induction docs with
  | nil => simp [updateFirst] at hx
  | cons d rest ih =>
      unfold updateFirst at hx
      by_cases hid : (d.id == id) = true
      · rw [if_pos hid] at hx
        rcases List.mem_cons.mp hx with h | h
        · exact Or.inr ⟨d, List.mem_cons_self d rest, h⟩
        · exact Or.inl (List.mem_cons_of_mem d h)
      · rw [if_neg hid] at hx
        rcases List.mem_cons.mp hx with h | h
        · exact Or.inl (h ▸ List.mem_cons_self d rest)
        · rcases ih h with h1 | ⟨d1, hd1, hfd1⟩
          · exact Or.inl (List.mem_cons_of_mem d h1)
          · exact Or.inr ⟨d1, List.mem_cons_of_mem d hd1, hfd1⟩

lemma mem_zipWith_buildDocument {es : List CreateInput} {newIds : List String}
    {now : Nat} {x : Doc}
    (hx : x ∈ List.zipWith (fun e i => buildDocument e i now) es newIds) :
    ∃ e ∈ es, ∃ i, x = buildDocument e i now := by
  induction es generalizing newIds with
  | nil => simp at hx
  | cons e rest ih =>
      cases newIds with
      | nil => simp at hx
      | cons i ids =>
          rcases List.mem_cons.mp hx with h | h
          · exact ⟨e, List.mem_cons_self e rest, i, h⟩
          · rcases ih h with ⟨e1, he1, i1, hx1⟩
            exact ⟨e1, List.mem_cons_of_mem e he1, i1, hx1⟩

/-- Claim C6: a create or update request with a feature vector of length
other than 90 is rejected 400 with the store untouched, and every route
that does write preserves the storage invariant that all stored vectors
have length 90. -/
theorem C6_vector_length_ninety (docs : List Doc) (e : CreateInput)
    (newId : String) (now : Nat) (id : String) (u : UpdateInput) :
    (e.feature_vector.length ≠ 90 →
      handleCreate docs e newId now = (validationErrorResponse, docs)) ∧
    (∀ v, u.feature_vector = some v → v.length ≠ 90 →
      handleUpdate docs id u now = (validationErrorResponse, docs)) ∧
    ((∀ d ∈ docs, d.vector.length = 90) →
      (∀ d ∈ (handleCreate docs e newId now).2, d.vector.length = 90) ∧
      (∀ d ∈ (handleUpdate docs id u now).2, d.vector.length = 90) ∧
      (∀ (es : List CreateInput) (newIds : List String),
        ∀ d ∈ (handleBatch docs es newIds now).2, d.vector.length = 90)) := by
  refine ⟨?_, ?_, ?_⟩
  · intro hlen
    unfold handleCreate
    rw [if_neg]
    intro hval
    exact hlen (createValid_vector_length hval)
  · intro v hv hlen
    unfold handleUpdate
    rw [if_neg]
    intro hval
    exact hlen (updateValid_vector_length hval hv)
  · intro hinv
    refine ⟨?_, ?_, ?_⟩
    · intro d hd
      unfold handleCreate at hd
      by_cases hval : createValid e = true
      · rw [if_pos hval] at hd
        simp only [createMemoryEmbedding] at hd
        rcases List.mem_append.mp hd with h | h
        · exact hinv d h
        · have : d = buildDocument e newId now := by simpa using h
          rw [this]
          exact createValid_vector_length hval
      · rw [if_neg hval] at hd
        exact hinv d hd
    · intro d hd
      unfold handleUpdate at hd
      by_cases hval : updateValid u = true
      · rw [if_pos hval] at hd
        cases hfd : findDoc docs id with
        | none =>
            simp only [updateMemoryEmbedding, hfd] at hd
            exact hinv d hd
        | some d0 =>
            simp only [updateMemoryEmbedding, hfd] at hd
            rcases mem_updateFirst hd with h | ⟨d1, hd1, rfl⟩
            · exact hinv d h
            · show (applyUpdateDoc d1 (buildUpdateDoc u now)).vector.length = 90
              unfold applyUpdateDoc buildUpdateDoc
              cases hv : u.feature_vector with
              | none => simpa using hinv d1 hd1
              | some v =>
                  simp only [hv, truthyArr, if_pos]
                  simpa using updateValid_vector_length hval hv
      · rw [if_neg hval] at hd
        exact hinv d hd
    · intro es newIds d hd
      unfold handleBatch at hd
      by_cases hval : batchValid es = true
      · rw [if_pos hval] at hd
        simp only [createMemoryEmbeddingsBatch] at hd
        rcases List.mem_append.mp hd with h | h
        · exact hinv d h
        · rcases mem_zipWith_buildDocument h with ⟨e1, he1, i1, rfl⟩
          have : createValid e1 = true := by
            simp only [batchValid, Bool.and_eq_true, List.all_eq_true] at hval
            exact hval.2 e1 he1
          exact createValid_vector_length this
      · rw [if_neg hval] at hd
        exact hinv d hd

/-- Claim C6 witness: a concrete create request and a concrete update
request with vectors of the wrong length are both answered 400 with an
empty store left untouched. -/
theorem C6_witness :
    handleCreate [] badCreate "n1" 0 = (validationErrorResponse, []) ∧
    handleUpdate [] "id1" badUpdate 0 = (validationErrorResponse, []) :=
  ⟨(C6_vector_length_ninety [] badCreate "n1" 0 "id1" badUpdate).1 (by decide),
   (C6_vector_length_ninety [] badCreate "n1" 0 "id1" badUpdate).2.1 []
     rfl (by decide)⟩

lemma truthyStr_of_min_length {s : String} (h : 1 ≤ s.length) :
    truthyStr (some s) = true := by
  simp only [truthyStr, ne_eq, decide_eq_true_eq]
  intro he
  rw [he] at h
  simp [String.length] at h

/-- Claim C2: for a validated update request the built change-set carries
exactly the supplied fields plus a refreshed updated_at (presence decides
application, so a supplied 0 or empty list still applies); applying it
leaves every unsupplied field, and every immutable field, at its stored
value in the returned post-update record; and the empty change-set is
accepted and is a pure updated_at refresh. -/
theorem C2_update_changeset_exact (u : UpdateInput) (now : Nat) (d : Doc)
    (hv : updateValid u = true) :
    (buildUpdateDoc u now).updated_at = now ∧
    (buildUpdateDoc u now).content_summary = u.content_summary ∧
    (buildUpdateDoc u now).importance_score = u.importance_score ∧
    (buildUpdateDoc u now).emotional_significance = u.emotional_significance ∧
    (buildUpdateDoc u now).temporal_relevance = u.temporal_relevance ∧
    (buildUpdateDoc u now).access_frequency = u.access_frequency ∧
    (buildUpdateDoc u now).vector = u.feature_vector ∧
    (buildUpdateDoc u now).gate_scores = u.gate_scores ∧
    (buildUpdateDoc u now).relationships = u.relationships ∧
    (buildUpdateDoc u now).context_needed = u.context_needed ∧
    (buildUpdateDoc u now).retrieval_triggers = u.retrieval_triggers ∧
    (applyUpdateDoc d (buildUpdateDoc u now)).updated_at = now ∧
    (applyUpdateDoc d (buildUpdateDoc u now)).content_summary
      = u.content_summary.getD d.content_summary ∧
    (applyUpdateDoc d (buildUpdateDoc u now)).importance_score
      = u.importance_score.getD d.importance_score ∧
    (applyUpdateDoc d (buildUpdateDoc u now)).emotional_significance
      = u.emotional_significance.getD d.emotional_significance ∧
    (applyUpdateDoc d (buildUpdateDoc u now)).temporal_relevance
      = u.temporal_relevance.getD d.temporal_relevance ∧
    (applyUpdateDoc d (buildUpdateDoc u now)).access_frequency
      = u.access_frequency.getD d.access_frequency ∧
    (applyUpdateDoc d (buildUpdateDoc u now)).vector
      = u.feature_vector.getD d.vector ∧
    (applyUpdateDoc d (buildUpdateDoc u now)).gate_scores
      = u.gate_scores.getD d.gate_scores ∧
    (applyUpdateDoc d (buildUpdateDoc u now)).relationships
      = u.relationships.getD d.relationships ∧
    (applyUpdateDoc d (buildUpdateDoc u now)).context_needed
      = u.context_needed.getD d.context_needed ∧
    (applyUpdateDoc d (buildUpdateDoc u now)).retrieval_triggers
      = u.retrieval_triggers.getD d.retrieval_triggers ∧
    (applyUpdateDoc d (buildUpdateDoc u now)).id = d.id ∧
    (applyUpdateDoc d (buildUpdateDoc u now)).user_id = d.user_id ∧
    (applyUpdateDoc d (buildUpdateDoc u now)).memory_type = d.memory_type ∧
    (applyUpdateDoc d (buildUpdateDoc u now)).original_entry_id = d.original_entry_id ∧
    (applyUpdateDoc d (buildUpdateDoc u now)).created_at = d.created_at ∧
    (applyUpdateDoc d (buildUpdateDoc u now)).last_accessed = d.last_accessed ∧
    (∀ (docs : List Doc) (id : String), findDoc docs id = some d →
      updateMemoryEmbedding docs id u now =
        .ok (mapFullDoc (applyUpdateDoc d (buildUpdateDoc u now)),
             updateFirst docs id (fun x => applyUpdateDoc x (buildUpdateDoc u now)))) ∧
    updateValid emptyUpdate = true ∧
    applyUpdateDoc d (buildUpdateDoc emptyUpdate now) = { d with updated_at := now } := by
  have hcs : (buildUpdateDoc u now).content_summary = u.content_summary := by
    unfold buildUpdateDoc
    cases hc : u.content_summary with
    | none => rfl
    | some s =>
        have hlen : 1 ≤ s.length := by
          simp only [updateValid, Bool.and_eq_true] at hv
          have := hv.1.1.1.1.1.1
          rw [hc] at this
          simp only [Bool.and_eq_true, decide_eq_true_eq] at this
          exact this.1
        simp [truthyStr_of_min_length hlen]
  have himp : (buildUpdateDoc u now).importance_score = u.importance_score := by
    unfold buildUpdateDoc
    cases u.importance_score <;> rfl
  have hemo : (buildUpdateDoc u now).emotional_significance = u.emotional_significance := by
    unfold buildUpdateDoc
    cases u.emotional_significance <;> rfl
  have htmp : (buildUpdateDoc u now).temporal_relevance = u.temporal_relevance := by
    unfold buildUpdateDoc
    cases u.temporal_relevance <;> rfl
  have hacc : (buildUpdateDoc u now).access_frequency = u.access_frequency := by
    unfold buildUpdateDoc
    cases u.access_frequency <;> rfl
  have hvec : (buildUpdateDoc u now).vector = u.feature_vector := by
    unfold buildUpdateDoc
    cases u.feature_vector <;> rfl
  have hgs : (buildUpdateDoc u now).gate_scores = u.gate_scores := by
    unfold buildUpdateDoc
    cases u.gate_scores <;> rfl
  have hrel : (buildUpdateDoc u now).relationships = u.relationships := by
    unfold buildUpdateDoc
    cases u.relationships <;> rfl
  have hctx : (buildUpdateDoc u now).context_needed = u.context_needed := by
    unfold buildUpdateDoc
    cases u.context_needed <;> rfl
  have htrg : (buildUpdateDoc u now).retrieval_triggers = u.retrieval_triggers := by
    unfold buildUpdateDoc
    cases u.retrieval_triggers <;> rfl
  refine ⟨rfl, hcs, himp, hemo, htmp, hacc, hvec, hgs, hrel, hctx, htrg,
    rfl, ?_, ?_, ?_, ?_, ?_, ?_, ?_, ?_, ?_, ?_,
    rfl, rfl, rfl, rfl, rfl, rfl, ?_, rfl, rfl⟩
  · show (buildUpdateDoc u now).content_summary.getD d.content_summary = _
    rw [hcs]
  · show (buildUpdateDoc u now).importance_score.getD d.importance_score = _
    rw [himp]
  · show (buildUpdateDoc u now).emotional_significance.getD d.emotional_significance = _
    rw [hemo]
  · show (buildUpdateDoc u now).temporal_relevance.getD d.temporal_relevance = _
    rw [htmp]
  · show (buildUpdateDoc u now).access_frequency.getD d.access_frequency = _
    rw [hacc]
  · show (buildUpdateDoc u now).vector.getD d.vector = _
    rw [hvec]
  · show (buildUpdateDoc u now).gate_scores.getD d.gate_scores = _
    rw [hgs]
  · show (buildUpdateDoc u now).relationships.getD d.relationships = _
    rw [hrel]
  · show (buildUpdateDoc u now).context_needed.getD d.context_needed = _
    rw [hctx]
  · show (buildUpdateDoc u now).retrieval_triggers.getD d.retrieval_triggers = _
    rw [htrg]
  · intro docs id hfd
    unfold updateMemoryEmbedding
    rw [hfd]

/-- Claim C2 witness: an update supplying importance_score 0 and an empty
relationship list still applies both fields; the change-set holds exactly
those two keys plus updated_at. -/
theorem C2_witness :
    (buildUpdateDoc zeroishUpdate 5).updated_at = 5 ∧
    (buildUpdateDoc zeroishUpdate 5).content_summary = zeroishUpdate.content_summary ∧
    (buildUpdateDoc zeroishUpdate 5).importance_score = zeroishUpdate.importance_score :=
  have h := C2_update_changeset_exact zeroishUpdate 5 sampleDoc (by rfl)
  ⟨h.1, h.2.1, h.2.2.1⟩

lemma simRows_pairwise (docs : List Doc) (simf : Doc → Rat) (limit : Nat)
    (f : SimFilters) :
    (simRows docs simf limit f).Pairwise (simOrder simf) := by
  unfold simRows
  exact List.Pairwise.sublist (List.take_sublist _ _)
    (List.sorted_insertionSort (simOrder simf) _)

lemma pairwise_getLast?_min {simf : Doc → Rat} :
    ∀ (l : List Doc), l.Pairwise (simOrder simf) →
      ∀ lo, l.getLast? = some lo → ∀ d ∈ l, simf lo ≤ simf d := by
  intro l
  induction l with
  | nil => intro _ lo h; simp at h
  | cons a t ih =>
      intro hp lo hlast d hd
      cases t with
      | nil =>
          simp at hlast hd
          subst hlast
          subst hd
          exact le_refl _
      | cons b t2 =>
          rw [List.getLast?_cons_cons] at hlast
          have hp2 := (List.pairwise_cons.mp hp).2
          have hab := (List.pairwise_cons.mp hp).1 b (List.mem_cons_self b t2)
          rcases List.mem_cons.mp hd with h | h
          · calc simf lo ≤ simf b :=
                  ih hp2 lo hlast b (List.mem_cons_self b t2)
              _ ≤ simf a := hab
              _ = simf d := by rw [h]
          · exact ih hp2 lo hlast d h

/-- Claim C5: the similarity search reports the query vector
dimensionality and the row count; the maximum and minimum similarity it
reports bound, and are attained by, the similarities of the returned rows;
both are 0 rather than an error on an empty result set; and every returned
record carries its own similarity under the similarity_score key. -/
theorem C5_similarity_summary (docs : List Doc) (qv : List Rat)
    (simf : Doc → Rat) (lim : Nat) (f : SimFilters) :
    (findSimilarMemoryEmbeddings docs qv simf lim f).query_vector_dimensions
      = qv.length ∧
    (findSimilarMemoryEmbeddings docs qv simf lim f).results_count
      = (findSimilarMemoryEmbeddings docs qv simf lim f).results.length ∧
    (simRows docs simf lim f = [] →
      (findSimilarMemoryEmbeddings docs qv simf lim f).max_similarity_score = 0 ∧
      (findSimilarMemoryEmbeddings docs qv simf lim f).min_similarity_score = 0) ∧
    (∀ d ∈ simRows docs simf lim f,
      (findSimilarMemoryEmbeddings docs qv simf lim f).min_similarity_score ≤ simf d ∧
      simf d ≤ (findSimilarMemoryEmbeddings docs qv simf lim f).max_similarity_score) ∧
    (simRows docs simf lim f ≠ [] →
      (∃ d ∈ simRows docs simf lim f,
        simf d = (findSimilarMemoryEmbeddings docs qv simf lim f).max_similarity_score) ∧
      (∃ d ∈ simRows docs simf lim f,
        simf d = (findSimilarMemoryEmbeddings docs qv simf lim f).min_similarity_score)) ∧
    (findSimilarMemoryEmbeddings docs qv simf lim f).results
      = (simRows docs simf lim f).map (fun d => mapSimilarDoc d (simf d)) ∧
    (∀ d ∈ simRows docs simf lim f,
      (mapSimilarDoc d (simf d)).lookup "similarity_score"
        = some (Json.jNum (simf d))) := by
  have hpw := simRows_pairwise docs simf lim f
  refine ⟨rfl, ?_, ?_, ?_, ?_, rfl, fun d _ => lookup_mapSimilarDoc_score d (simf d)⟩
  · simp [findSimilarMemoryEmbeddings]
  · intro hnil
    simp [findSimilarMemoryEmbeddings, hnil]
  · intro d hd
    constructor
    · show (match (simRows docs simf lim f).getLast? with
            | none => 0 | some r => simf r) ≤ simf d
      cases hlast : (simRows docs simf lim f).getLast? with
      | none =>
          rw [List.getLast?_eq_none_iff] at hlast
          rw [hlast] at hd
          simp at hd
      | some lo =>
          exact pairwise_getLast?_min _ hpw lo hlast d hd
    · show simf d ≤ (match simRows docs simf lim f with
            | [] => 0 | r :: _ => simf r)
      cases hrows : simRows docs simf lim f with
      | nil => rw [hrows] at hd; simp at hd
      | cons a t =>
          rw [hrows] at hd hpw
          rcases List.mem_cons.mp hd with h | h
          · rw [h]
          · exact (List.pairwise_cons.mp hpw).1 d h
  · intro hne
    constructor
    · cases hrows : simRows docs simf lim f with
      | nil => exact absurd hrows hne
      | cons a t =>
          refine ⟨a, List.mem_cons_self a t, ?_⟩
          show simf a = (match simRows docs simf lim f with
              | [] => (0 : Rat) | r :: _ => simf r)
          rw [hrows]
    · cases hlast : (simRows docs simf lim f).getLast? with
      | none => exact absurd (List.getLast?_eq_none_iff.mp hlast) hne
      | some lo =>
          refine ⟨lo, ?_, ?_⟩
          · obtain ⟨h, heq⟩ :=
              List.mem_getLast?_eq_getLast (Option.mem_def.mpr hlast)
            rw [heq]
            exact List.getLast_mem h
          · show simf lo = (match (simRows docs simf lim f).getLast? with
                | none => 0 | some r => simf r)
            rw [hlast]

/-- Claim C5 witness: on an empty store the similarity search reports
max and min similarity 0 rather than failing. -/
theorem C5_witness :
    (findSimilarMemoryEmbeddings [] (List.replicate 90 (0 : Rat))
        (fun _ => 1/2) 10 {}).max_similarity_score = 0 ∧
    (findSimilarMemoryEmbeddings [] (List.replicate 90 (0 : Rat))
        (fun _ => 1/2) 10 {}).min_similarity_score = 0 :=
  (C5_similarity_summary [] (List.replicate 90 (0 : Rat))
    (fun _ => 1/2) 10 {}).2.2.1 rfl

/-- Claim C3: for any query with a supplied positive limit, the pagination
summary satisfies has_next iff offset + limit is below the total matching
count, has_previous iff the offset is positive, current_page equals
floor(offset/limit) + 1, total_pages equals ceil(total/limit), the total
count is the number of matching documents, and the page never holds more
than limit items. -/
theorem C3_pagination_invariant (docs : List Doc) (o : QueryOptions)
    (l n : Nat) (hl : o.limit = some l) (hpos : 0 < l)
    (ho : o.offset = some n) :
    ((queryMemoryEmbeddings docs o).pagination.has_next = true ↔
      n + l < (docs.filter (matchesQuery o)).length) ∧
    ((queryMemoryEmbeddings docs o).pagination.has_previous = true ↔ 0 < n) ∧
    (queryMemoryEmbeddings docs o).pagination.current_page =
      JsNum.num ((⌊(n : Rat) / (l : Rat)⌋ : Rat) + 1) ∧
    (queryMemoryEmbeddings docs o).pagination.total_pages =
      JsNum.num (⌈((docs.filter (matchesQuery o)).length : Rat) / (l : Rat)⌉ : Rat) ∧
    (queryMemoryEmbeddings docs o).pagination.total_count =
      (docs.filter (matchesQuery o)).length ∧
    (queryMemoryEmbeddings docs o).results.length ≤ l := by
  have hlq : ((l : Rat) = 0) = False := by
    simp only [eq_iff_iff, iff_false]
    exact_mod_cast Nat.pos_iff_ne_zero.mp hpos
  refine ⟨?_, ?_, ?_, ?_, ?_, ?_⟩
  · simp [queryMemoryEmbeddings, hl, ho]
  · simp [queryMemoryEmbeddings, hl, ho]
  · show jsAdd (jsFloor (jsDiv (.num ((o.offset.getD 0 : Nat) : Rat))
        (.num ((o.limit.getD 20 : Nat) : Rat)))) (.num 1) = _
    rw [hl, ho]
    simp only [Option.getD_some, jsDiv, hlq, if_false, jsFloor, jsAdd]
  · show jsCeil (jsDiv (.num (((docs.filter (matchesQuery o)).length : Nat) : Rat))
        (.num ((o.limit.getD 20 : Nat) : Rat))) = _
    rw [hl]
    simp only [Option.getD_some, jsDiv, hlq, if_false, jsCeil]
  · rfl
  · show (List.map mapQueryDoc
        ((((docs.filter (matchesQuery o)).insertionSort
            (docOrder (o.sort_by.getD "created_at")
              (o.sort_order.getD "desc" == "asc"))).drop
          (o.offset.getD 0)).take (o.limit.getD 20))).length ≤ l
    rw [hl]
    simp only [Option.getD_some, List.length_map]
    exact List.length_take_le l _

/-- Options requesting page size 1 at offset 0, used in the concrete
pagination instantiation. -/
def pageOneOpts : QueryOptions := { limit := some 1, offset := some 0 }

/-- Claim C3 witness: the pagination invariant evaluated on the empty
store with limit 1 and offset 0. -/
theorem C3_witness :
    ((queryMemoryEmbeddings [] pageOneOpts).pagination.has_next = true ↔
      0 + 1 < (([] : List Doc).filter (matchesQuery pageOneOpts)).length) ∧
    ((queryMemoryEmbeddings [] pageOneOpts).pagination.has_previous = true ↔ 0 < 0) ∧
    (queryMemoryEmbeddings [] pageOneOpts).pagination.current_page =
      JsNum.num ((⌊((0 : Nat) : Rat) / ((1 : Nat) : Rat)⌋ : Rat) + 1) ∧
    (queryMemoryEmbeddings [] pageOneOpts).pagination.total_pages =
      JsNum.num (⌈((([] : List Doc).filter (matchesQuery pageOneOpts)).length : Rat)
        / ((1 : Nat) : Rat)⌉ : Rat) ∧
    (queryMemoryEmbeddings [] pageOneOpts).pagination.total_count =
      (([] : List Doc).filter (matchesQuery pageOneOpts)).length ∧
    (queryMemoryEmbeddings [] pageOneOpts).results.length ≤ 1 :=
  C3_pagination_invariant [] pageOneOpts 1 0 rfl (by decide) rfl

/-- Five stored documents, used to exhibit the limit-0 pagination
values. -/
def fiveDocs : List Doc := List.replicate 5 sampleDoc

/-- Options requesting page size 0, which the generic query service
accepts. -/
def limitZeroOpts : QueryOptions := { limit := some 0 }

/-- Claim C4 counterexample: with limit 0 the query operation does not
reject and does not produce a defined single-page result: on a five
document store it reports total_pages Infinity and current_page NaN, so
the pagination values are not finite numbers. -/
theorem C4_counterexample :
    (queryMemoryEmbeddings fiveDocs limitZeroOpts).pagination.total_pages
      = JsNum.posInf ∧
    (queryMemoryEmbeddings fiveDocs limitZeroOpts).pagination.current_page
      = JsNum.nan ∧
    (queryMemoryEmbeddings fiveDocs limitZeroOpts).pagination.total_pages.isFinite
      = false ∧
    (queryMemoryEmbeddings fiveDocs limitZeroOpts).pagination.current_page.isFinite
      = false := by
  refine ⟨?_, ?_, ?_, ?_⟩ <;> rfl

/-- Claim C4 amended: the validated query route rejects limit 0 with a 400
before the service runs, but the service itself accepts limit 0 and its
pagination arithmetic then yields non-finite page values (NaN or
Infinity), reachable through the convenience routes that skip the
validator. -/
theorem C4_limit_zero_amended :
    (∀ (o : QueryOptions), o.limit = some 0 →
      queryValid o = false ∧
      ∀ docs : List Doc, handleQuery docs o = queryValidationErrorResponse) ∧
    (∀ (docs : List Doc) (o : QueryOptions), o.limit = some 0 →
      (queryMemoryEmbeddings docs o).pagination.current_page.isFinite = false ∧
      (queryMemoryEmbeddings docs o).pagination.total_pages.isFinite = false) := by
  constructor
  · intro o hlim
    have hval : queryValid o = false := by
      simp [queryValid, hlim]
    exact ⟨hval, fun docs => by unfold handleQuery; rw [if_neg (by simp [hval])]⟩
  · intro docs o hlim
    constructor
    · show (jsAdd (jsFloor (jsDiv (.num ((o.offset.getD 0 : Nat) : Rat))
        (.num ((o.limit.getD 20 : Nat) : Rat)))) (.num 1)).isFinite = false
      rw [hlim]
      by_cases hoff : (o.offset.getD 0) = 0
      · rw [hoff]
        rfl
      · have : (0 : Rat) < ((o.offset.getD 0 : Nat) : Rat) := by
          exact_mod_cast Nat.pos_iff_ne_zero.mpr hoff
        simp [jsDiv, jsFloor, jsAdd, JsNum.isFinite,
          (Nat.cast_ne_zero (R := Rat)).mpr hoff, this, ne_of_gt this]
    · show (jsCeil (jsDiv (.num (((docs.filter (matchesQuery o)).length : Nat) : Rat))
        (.num ((o.limit.getD 20 : Nat) : Rat)))).isFinite = false
      rw [hlim]
      by_cases htot : (docs.filter (matchesQuery o)).length = 0
      · rw [htot]
        rfl
      · have : (0 : Rat) < (((docs.filter (matchesQuery o)).length : Nat) : Rat) := by
          exact_mod_cast Nat.pos_iff_ne_zero.mpr htot
        simp [jsDiv, jsCeil, JsNum.isFinite,
          (Nat.cast_ne_zero (R := Rat)).mpr htot, this, ne_of_gt this]

/-- Claim C4 amended witness: with limit 0 the validator rejects, the
validated route answers 400, and the service yields non-finite page
values on the empty store. -/
theorem C4_witness :
    queryValid limitZeroOpts = false ∧
    handleQuery [] limitZeroOpts = queryValidationErrorResponse ∧
    (queryMemoryEmbeddings [] limitZeroOpts).pagination.current_page.isFinite = false ∧
    (queryMemoryEmbeddings [] limitZeroOpts).pagination.total_pages.isFinite = false :=
  have h1 := C4_limit_zero_amended.1 limitZeroOpts rfl
  have h2 := C4_limit_zero_amended.2 [] limitZeroOpts rfl
  ⟨h1.1, h1.2 [], h2.1, h2.2⟩

/-- Combined effect of a run of access recordings on the touched document:
the counter grows by the number of calls and both timestamps land on the
last call time (an empty run changes nothing). -/
def bumpN (ts : List Nat) (x : Doc) : Doc :=
  { x with
    access_frequency := x.access_frequency + ts.length
    last_accessed := ts.getLastD x.last_accessed
    updated_at := ts.getLastD x.updated_at }

/-- The per-call results of a run of access recordings starting from
counter value k: the i-th call returns counter k + i + 1 and its own call
time. -/
def expectedAccessResults (idv : String) (k : Nat) : List Nat → List AccessResult
  | [] => []
  | t :: ts =>
      { id := idv, access_frequency := k + 1, last_accessed := t } ::
        expectedAccessResults idv (k + 1) ts

lemma findDoc_updateFirst {docs : List Doc} {id : String} {f : Doc → Doc}
    {d : Doc} (hpres : ∀ x, (f x).id = x.id)
    (hfd : findDoc docs id = some d) :
    findDoc (updateFirst docs id f) id = some (f d) := by
  induction docs with
  | nil => simp [findDoc] at hfd
  | cons d0 rest ih =>
      unfold updateFirst
      by_cases hid : (d0.id == id) = true
      · rw [if_pos hid]
        have hd0 : d0 = d := by
          unfold findDoc at hfd
          rw [@List.find?_cons_of_pos Doc (fun x => x.id == id) d0 rest hid] at hfd
          exact Option.some_inj.mp hfd
        subst hd0
        unfold findDoc
        rw [@List.find?_cons_of_pos Doc (fun x => x.id == id) (f d0) rest
          (show ((f d0).id == id) = true by rw [hpres d0]; exact hid)]
      · rw [if_neg hid]
        have hrest : findDoc rest id = some d := by
          unfold findDoc at hfd
          rwa [@List.find?_cons_of_neg Doc (fun x => x.id == id) d0 rest hid] at hfd
        unfold findDoc
        rw [@List.find?_cons_of_neg Doc (fun x => x.id == id) d0
          (updateFirst rest id f) hid]
        exact ih hrest

lemma updateFirst_updateFirst {docs : List Doc} {id : String}
    {f g : Doc → Doc} (hpres : ∀ x, (f x).id = x.id) :
    updateFirst (updateFirst docs id f) id g = updateFirst docs id (fun x => g (f x)) := by
  induction docs with
  | nil => rfl
  | cons d0 rest ih =>
      by_cases hid : (d0.id == id) = true
      · have hfid : ((f d0).id == id) = true := by rw [hpres d0]; exact hid
        show updateFirst (if (d0.id == id) = true then f d0 :: rest
            else d0 :: updateFirst rest id f) id g = _
        rw [if_pos hid]
        unfold updateFirst
        rw [if_pos hfid, if_pos hid]
      · show updateFirst (if (d0.id == id) = true then f d0 :: rest
            else d0 :: updateFirst rest id f) id g = _
        rw [if_neg hid]
        unfold updateFirst
        rw [if_neg hid, if_neg hid, ih]

lemma updateFirst_id (docs : List Doc) (id : String) :
    updateFirst docs id (fun x => x) = docs := by
  induction docs with
  | nil => rfl
  | cons d0 rest ih =>
      unfold updateFirst
      by_cases hid : (d0.id == id) = true
      · rw [if_pos hid]
      · rw [if_neg hid, ih]

lemma bumpN_nil : bumpN [] = fun x => x := by
  funext x
  rfl

lemma bumpN_cons (t : Nat) (ts : List Nat) :
    (fun x => bumpN ts (bumpAccess t x)) = bumpN (t :: ts) := by
  funext x
  unfold bumpN bumpAccess
  ext
  all_goals simp only [List.getLastD_cons, List.length_cons]
  all_goals omega

lemma runAccesses_eq (id : String) :
    ∀ (ts : List Nat) (docs : List Doc) (d : Doc),
      findDoc docs id = some d →
      runAccesses docs id ts =
        .ok (expectedAccessResults d.id d.access_frequency ts,
             updateFirst docs id (bumpN ts)) := by
  intro ts
  induction ts with
  | nil =>
      intro docs d _
      rw [bumpN_nil, updateFirst_id]
      rfl
  | cons t ts ih =>
      intro docs d hfd
      have hstep : recordMemoryAccess docs id t =
          .ok (AccessResult.mk d.id (d.access_frequency + 1) t,
               updateFirst docs id (bumpAccess t)) := by
        unfold recordMemoryAccess
        rw [hfd]
        rfl
      have hfd1 : findDoc (updateFirst docs id (bumpAccess t)) id =
          some (bumpAccess t d) :=
        findDoc_updateFirst (fun _ => rfl) hfd
      have hrec := ih (updateFirst docs id (bumpAccess t)) (bumpAccess t d) hfd1
      show (match recordMemoryAccess docs id t with
        | .error e => Except.error e
        | .ok (r, docs1) =>
            match runAccesses docs1 id ts with
            | .error e => Except.error e
            | .ok (rs, docs2) => Except.ok (r :: rs, docs2)) = _
      rw [hstep]
      show (match runAccesses (updateFirst docs id (bumpAccess t)) id ts with
        | .error e => Except.error e
        | .ok (rs, docs2) =>
            Except.ok (AccessResult.mk d.id (d.access_frequency + 1) t :: rs, docs2)) = _
      rw [hrec,
        @updateFirst_updateFirst docs id (bumpAccess t) (bumpN ts) (fun _ => rfl),
        bumpN_cons]
      rfl

lemma expectedAccessResults_map_af (idv : String) :
    ∀ (ts : List Nat) (k : Nat),
      (expectedAccessResults idv k ts).map (fun r => r.access_frequency) =
        List.range' (k + 1) ts.length := by
  intro ts
  induction ts with
  | nil => intro k; rfl
  | cons t ts ih =>
      intro k
      show (k + 1) :: (expectedAccessResults idv (k + 1) ts).map
          (fun r => r.access_frequency) = List.range' (k + 1) (ts.length + 1)
      rw [ih (k + 1), List.range'_succ]

lemma expectedAccessResults_map_la (idv : String) :
    ∀ (ts : List Nat) (k : Nat),
      (expectedAccessResults idv k ts).map (fun r => r.last_accessed) = ts := by
  intro ts
  induction ts with
  | nil => intro k; rfl
  | cons t ts ih =>
      intro k
      show t :: (expectedAccessResults idv (k + 1) ts).map
          (fun r => r.last_accessed) = t :: ts
      rw [ih (k + 1)]

/-- Claim C8: a run of N access recordings on a record with counter 0
returns counter values 1 through N with the respective call times, each
call strictly advancing last_accessed when the clock strictly advances;
afterwards the stored record differs from the original only in
access_frequency (now N), last_accessed and updated_at (now the last call
time). -/
theorem C8_record_access_monotonic (docs : List Doc) (id : String) (d : Doc)
    (ts : List Nat) (hfd : findDoc docs id = some d)
    (h0 : d.access_frequency = 0) :
    runAccesses docs id ts =
      .ok (expectedAccessResults d.id d.access_frequency ts,
           updateFirst docs id (bumpN ts)) ∧
    (expectedAccessResults d.id d.access_frequency ts).map
      (fun r => r.access_frequency) = List.range' 1 ts.length ∧
    (expectedAccessResults d.id d.access_frequency ts).map
      (fun r => r.last_accessed) = ts ∧
    (List.Chain' (· < ·) ts →
      List.Chain' (· < ·) ((expectedAccessResults d.id d.access_frequency ts).map
        (fun r => r.last_accessed))) ∧
    findDoc (updateFirst docs id (bumpN ts)) id = some (bumpN ts d) ∧
    (bumpN ts d).access_frequency = ts.length ∧
    (bumpN ts d).last_accessed = ts.getLastD d.last_accessed ∧
    (bumpN ts d).id = d.id ∧
    (bumpN ts d).user_id = d.user_id ∧
    (bumpN ts d).memory_type = d.memory_type ∧
    (bumpN ts d).content_summary = d.content_summary ∧
    (bumpN ts d).original_entry_id = d.original_entry_id ∧
    (bumpN ts d).importance_score = d.importance_score ∧
    (bumpN ts d).emotional_significance = d.emotional_significance ∧
    (bumpN ts d).temporal_relevance = d.temporal_relevance ∧
    (bumpN ts d).created_at = d.created_at ∧
    (bumpN ts d).vector = d.vector ∧
    (bumpN ts d).gate_scores = d.gate_scores ∧
    (bumpN ts d).relationships = d.relationships ∧
    (bumpN ts d).context_needed = d.context_needed ∧
    (bumpN ts d).retrieval_triggers = d.retrieval_triggers := by
  refine ⟨runAccesses_eq id ts docs d hfd, ?_, expectedAccessResults_map_la d.id ts _,
    ?_, findDoc_updateFirst (fun _ => rfl) hfd, ?_,
    rfl, rfl, rfl, rfl, rfl, rfl, rfl, rfl, rfl, rfl, rfl, rfl, rfl, rfl, rfl⟩
  · rw [h0]
    exact expectedAccessResults_map_af d.id ts 0
  · intro hchain
    rw [expectedAccessResults_map_la d.id ts _]
    exact hchain
  · show d.access_frequency + ts.length = ts.length
    rw [h0]
    exact Nat.zero_add _

/-- Claim C8 witness: three access recordings on a counter-0 record return
counters 1, 2, 3 with the three call times. -/
theorem C8_witness :
    runAccesses [sampleDoc] "id1" [1, 2, 3] =
      .ok (expectedAccessResults sampleDoc.id sampleDoc.access_frequency [1, 2, 3],
           updateFirst [sampleDoc] "id1" (bumpN [1, 2, 3])) ∧
    (expectedAccessResults sampleDoc.id sampleDoc.access_frequency [1, 2, 3]).map
      (fun r => r.access_frequency) = List.range' 1 3 :=
  have h := C8_record_access_monotonic [sampleDoc] "id1" sampleDoc [1, 2, 3] rfl rfl
  ⟨h.1, by simpa using h.2.1⟩

end MemDB
